import Mathlib

/-!
Verification development for the Ai-WhatsApp style-learning and adaptive
auto-reply engine (src/bot/personality_learner.py, src/bot/auto_reply.py,
src/bot/style_mimicker.py, src/bot/whatsapp_client.py).

Python strings are modelled as `List Char` (`Str`).  Python floats are
modelled as exact rationals; the constants 0.8, 0.2, 0.9, 0.1 appearing in
the sources are the corresponding rationals.  Python dicts are modelled as
insertion-ordered association lists.  Regular-expression scans in the source
are all over fixed literal alternations; they are modelled by fuel-bounded
left-to-right scanners that mirror the leftmost, non-overlapping semantics
of re.findall and re.sub for those particular patterns.
-/

set_option allowUnsafeReducibility true
attribute [local semireducible] Rat.mul Rat.inv Rat.add Rat.sub Rat.div

namespace AiWa

/-- Python strings as lists of characters. -/
abbrev Str := List Char

/-- The apostrophe character (written by code point to keep source plain). -/
def apos : Char := Char.ofNat 39

/-- Python str.lower, character-wise (ASCII messages). -/
def pyLower (s : Str) : Str := s.map Char.toLower

/-- Python str.upper, character-wise (ASCII messages). -/
def pyUpper (s : Str) : Str := s.map Char.toUpper

/-- Python str.strip: drop leading and trailing whitespace. -/
def pyStrip (s : Str) : Str :=
  ((s.dropWhile Char.isWhitespace).reverse.dropWhile Char.isWhitespace).reverse

/-- Split at every character satisfying `p`, keeping empty pieces
(the model of re.split over a character class; the callers filter empties). -/
def splitOnPred (p : Char → Bool) : Str → List Str
  | [] => [[]]
  | c :: rest =>
    match splitOnPred p rest with
    | [] => [[]]
    | h :: t => if p c then [] :: h :: t else (c :: h) :: t

/-- Python str.split() with no argument: maximal whitespace-free words,
empty pieces dropped. -/
def pySplitWs (s : Str) : List Str :=
  (splitOnPred Char.isWhitespace s).filter (fun w => w ≠ [])

/-- Python sep.join(pieces). -/
def joinWith (sep : Str) : List Str → Str
  | [] => []
  | [w] => w
  | w :: rest => w ++ sep ++ joinWith sep rest

/-- Python `c in s` for a single character. -/
def hasChar (c : Char) (s : Str) : Bool := s.any (· == c)

/-- Python `w in s` substring containment. -/
def substrIn (w s : Str) : Bool := s.tails.any (fun t => w.isPrefixOf t)

/-- Python `s.count(c)` for a single character. -/
def countChar (c : Char) (s : Str) : Nat := s.countP (· == c)

/-- Python str.capitalize: first character upper-cased, the rest lower-cased. -/
def pyCapitalize : Str → Str
  | [] => []
  | c :: rest => c.toUpper :: pyLower rest

/-- Python str.replace for a single-character needle. -/
def pyReplaceChar (c : Char) (repl : Str) : Str → Str
  | [] => []
  | d :: rest => (if d == c then repl else [d]) ++ pyReplaceChar c repl rest

/-- A word character for the regex class backslash-w (ASCII messages). -/
def isWordChar (c : Char) : Bool := c.isAlphanum || c == '_'

/-- Lookup in an insertion-ordered association list (Python dict .get). -/
def dictGet {α : Type} : List (String × α) → String → Option α
  | [], _ => none
  | p :: rest, k => if p.1 == k then some p.2 else dictGet rest k

/-- Python dict .get with a default. -/
def dictGetD {α : Type} (m : List (String × α)) (k : String) (d : α) : α :=
  (dictGet m k).getD d

/-- Python dict assignment: overwrite in place when the key exists
(keeping its position), otherwise append at the end. -/
def dictSet {α : Type} : List (String × α) → String → α → List (String × α)
  | [], k, v => [(k, v)]
  | p :: rest, k, v =>
    if p.1 == k then (k, v) :: rest else p :: dictSet rest k v

/-- Add `n` occurrences of key `k` to a Counter (collections.Counter). -/
def counterAdd (m : List (String × Nat)) (k : String) (n : Nat) :
    List (String × Nat) :=
  dictSet m k (dictGetD m k 0 + n)

/-- A matcher consumes a prefix of the suffix starting at the current scan
position; it receives the previous character (for word boundaries) and
returns the matched text together with the remaining suffix. -/
def Matcher := Option Char → Str → Option (Str × Str)

/-- Leftmost non-overlapping match count (the model of len(re.findall(...))
for the literal alternations used by the source). Fuel is the string length;
every match consumes at least one character. -/
def scanCount (m : Matcher) : Nat → Option Char → Str → Nat
  | 0, _, _ => 0
  | _ + 1, _, [] => 0
  | fuel + 1, prev, c :: rest =>
    match m prev (c :: rest) with
    | some (matched, rest2) => 1 + scanCount m fuel matched.getLast? rest2
    | none => scanCount m fuel (some c) rest

/-- Count of leftmost non-overlapping matches in a whole string. -/
def findCount (m : Matcher) (s : Str) : Nat := scanCount m s.length none s

/-- Word-boundary check for the position before a match whose first
character is a word character. -/
def boundaryBefore (prev : Option Char) : Bool :=
  match prev with
  | none => true
  | some p => !isWordChar p

/-- Word-boundary check for the position after a match whose last
character is a word character. -/
def boundaryAfter (rest : Str) : Bool :=
  match rest.head? with
  | none => true
  | some c => !isWordChar c

/-- Matcher for a literal wrapped in word boundaries.  All literals used by
the source start and end with word characters. -/
def matchWB (lit : Str) : Matcher := fun prev s =>
  if boundaryBefore prev && lit.isPrefixOf s then
    let rest := s.drop lit.length
    if boundaryAfter rest then some (lit, rest) else none
  else none

/-- Matcher for an alternation of word-boundary literals, tried in order. -/
def matchAltWB (lits : List Str) : Matcher := fun prev s =>
  lits.findSome? (fun lit => matchWB lit prev s)

/-- Matcher for a plain literal (no word boundaries). -/
def matchLit (lit : Str) : Matcher := fun _ s =>
  if lit.isPrefixOf s then some (lit, s.drop lit.length) else none

/-- Matcher for an alternation of plain literals, tried in order. -/
def matchAlt (lits : List Str) : Matcher := fun prev s =>
  lits.findSome? (fun lit => matchLit lit prev s)

/-- Matcher for a maximal nonempty run of characters of a class (the model
of greedy CLASS+ with no boundary assertions). -/
def matchClassRun (p : Char → Bool) : Matcher := fun _ s =>
  let run := s.takeWhile p
  if run = [] then none else some (run, s.drop run.length)

/-- All leftmost non-overlapping matched texts (the model of re.findall for
the scans whose matched text is consumed). -/
def scanAll (m : Matcher) : Nat → Option Char → Str → List Str
  | 0, _, _ => []
  | _ + 1, _, [] => []
  | fuel + 1, prev, c :: rest =>
    match m prev (c :: rest) with
    | some (matched, rest2) => matched :: scanAll m fuel matched.getLast? rest2
    | none => scanAll m fuel (some c) rest

/-- All matches in a whole string. -/
def findAll (m : Matcher) (s : Str) : List Str := scanAll m s.length none s

/-- Python re.search truth value for a word-boundary alternation. -/
def searchWB (lits : List Str) (s : Str) : Bool := 0 < findCount (matchAltWB lits) s

/-- Python list(set(..)) as first-occurrence deduplication.  CPython set
iteration order is hash-dependent; only membership and the resulting length
matter to the modelled callers, none of which exceed the downstream cap. -/
def pyDedup : List String → List String
  | [] => []
  | x :: rest => x :: (pyDedup rest).filter (fun y => y ≠ x)

/-! ## Data model: the personality profile
Mirrors create_default_profile in src/bot/github_profile_manager.py.
Timestamp fields (created, last_updated, last_learning_session) are wall
clock strings never read back by the modelled logic and are omitted. -/

structure CommunicationStyle where
  tone : String
  common_phrases : List (String × ℚ)
  emoji_usage : List (String × ℚ)
  response_length_preference : String
  punctuation_style : String
  caps_usage_frequency : ℚ
  /-- Whether the underlying dict carries the optional key ellipsis_usage,
  tested by name in the style mimicker. -/
  has_ellipsis_usage_key : Bool
  deriving DecidableEq

structure LearnedPatterns where
  greeting_style : String
  goodbye_style : String
  agreement_phrases : List String
  disagreement_style : String
  excitement_indicators : List String
  question_patterns : String
  topic_transitions : String
  deriving DecidableEq

structure ConversationContext where
  favorite_topics : List String
  preferred_times : List String
  mood_patterns : List (String × String)
  response_triggers : List (String × String)
  deriving DecidableEq

structure LearningMetadata where
  total_messages_analyzed : Nat
  confidence_score : ℚ
  pattern_reliability : String
  deriving DecidableEq

structure Profile where
  user_id : String
  communication_style : CommunicationStyle
  learned_patterns : LearnedPatterns
  conversation_context : ConversationContext
  learning_metadata : LearningMetadata
  deriving DecidableEq

/-- The default profile created by create_default_profile. -/
def default_profile : Profile :=
  { user_id := "owner"
    communication_style :=
      { tone := "casual, tech-savvy, direct"
        common_phrases := []
        emoji_usage := []
        response_length_preference := "medium"
        punctuation_style := "standard"
        caps_usage_frequency := 1/10
        has_ellipsis_usage_key := false }
    learned_patterns :=
      { greeting_style := "hey there"
        goodbye_style := "see you later"
        agreement_phrases := ["yes", "absolutely", "definitely", "for sure"]
        disagreement_style := "not really"
        excitement_indicators := ["wow", "amazing", "awesome"]
        question_patterns := "direct_questions"
        topic_transitions := "smooth_transitions" }
    conversation_context :=
      { favorite_topics := []
        preferred_times := []
        mood_patterns :=
          [("excited", "enthusiastic_responses"), ("casual", "relaxed_tone"),
           ("focused", "professional_language")]
        response_triggers := [] }
    learning_metadata :=
      { total_messages_analyzed := 0
        confidence_score := 0
        pattern_reliability := "initializing" } }

/-! ## Feature extraction (PersonalityLearner.analyze_message_patterns) -/

/-- Emoji character classes of the compiled emoji_pattern
in PersonalityLearner. -/
def isEmojiChar (c : Char) : Bool :=
  (0x1F600 ≤ c.toNat && c.toNat ≤ 0x1F64F) ||
  (0x1F300 ≤ c.toNat && c.toNat ≤ 0x1F5FF) ||
  (0x1F680 ≤ c.toNat && c.toNat ≤ 0x1F6FF) ||
  (0x1F1E0 ≤ c.toNat && c.toNat ≤ 0x1F1FF) ||
  (0x2702 ≤ c.toNat && c.toNat ≤ 0x27B0) ||
  (0x24C2 ≤ c.toNat && c.toNat ≤ 0x1F251)

/-- PersonalityLearner.extract_emojis: per-glyph-run Counter. -/
def extract_emojis (message : Str) : List (String × Nat) :=
  (findAll (matchClassRun isEmojiChar) message).foldl
    (fun m e => counterAdd m (String.mk e) 1) []

/-- The common_expressions literal list of PersonalityLearner.extract_phrases,
in source order (the literal wow occurs twice, as in the source). -/
def common_expressions : List Str :=
  [("lol").data, ("haha").data, ("lmao").data, ("hehe").data,
   ("no way").data, ("that").data ++ [apos] ++ ("s wild").data,
   ("no cap").data, ("facts").data,
   ("for sure").data, ("absolutely").data, ("definitely").data,
   ("that").data ++ [apos] ++ ("s fire").data,
   ("that").data ++ [apos] ++ ("s insane").data, ("wow").data,
   ("yeah").data, ("nah").data, ("okay").data, ("alright").data,
   ("btw").data, ("omg").data, ("wow").data, ("cool").data]

/-- PersonalityLearner.extract_phrases: Counter over all word-boundary
matches of each expression in the lower-cased message. -/
def extract_phrases (message : Str) : List (String × Nat) :=
  let lower := pyLower message
  common_expressions.foldl
    (fun m lit =>
      let n := findCount (matchWB lit) lower
      if 0 < n then counterAdd m (String.mk lit) n else m) []

/-- Matcher of the excited-tone regex: two or more exclamation marks, or
wow with a greedy trailing w-run, or one of three plain keywords. -/
def matchExcitedTone : Matcher := fun prev s =>
  let bangs := s.takeWhile (· == '!')
  if 2 ≤ bangs.length then some (bangs, s.drop bangs.length)
  else if ("wo").data.isPrefixOf s then
    let rest := s.drop 2
    let ws := rest.takeWhile (· == 'w')
    if ws ≠ [] then some (("wo").data ++ ws, rest.drop ws.length)
    else matchAlt [("amazing").data, ("awesome").data, ("incredible").data] prev s
  else matchAlt [("amazing").data, ("awesome").data, ("incredible").data] prev s

/-- PersonalityLearner.analyze_tone: the eight tone counters, in dict order,
normalized by the word count. -/
def analyze_tone (message : Str) : List (String × ℚ) :=
  let lower := pyLower message
  let wc := (pySplitWs message).length
  let norm : Nat → ℚ := fun v => (v : ℚ) / (max wc 1 : ℚ)
  [("excited", norm (findCount matchExcitedTone lower)),
   ("casual", norm (findCount (matchAltWB
      [("yeah").data, ("okay").data, ("cool").data, ("alright").data]) lower)),
   ("questioning", norm (countChar '?' message)),
   ("emphatic", norm (countChar '!' message)),
   ("positive", norm (findCount (matchAlt
      [("good").data, ("great").data, ("nice").data, ("love").data,
       ("like").data, ("happy").data, ("glad").data]) lower)),
   ("negative", norm (findCount (matchAlt
      [("bad").data, ("hate").data, ("sad").data, ("angry").data,
       ("annoying").data, ("terrible").data]) lower)),
   ("technical", norm (findCount (matchAlt
      [("api").data, ("code").data, ("python").data, ("javascript").data,
       ("github").data, ("programming").data]) lower)),
   ("humorous", norm (findCount (matchAlt
      [("lol").data, ("haha").data, ("lmao").data, ("funny").data,
       ("joke").data, ("meme").data]) lower))]

/-- PersonalityLearner.analyze_punctuation result fields. -/
structure PunctuationFeatures where
  uses_periods : Bool
  multiple_exclamations : Bool
  multiple_questions : Bool
  ellipsis_usage : Bool
  comma_frequency : ℚ
  quotation_usage : Bool
  deriving DecidableEq

/-- PersonalityLearner.analyze_punctuation. -/
def analyze_punctuation (message : Str) : PunctuationFeatures :=
  { uses_periods := 0 < countChar '.' message
    multiple_exclamations :=
      substrIn ("!!").data message || substrIn ("!!!").data message
    multiple_questions := substrIn ("??").data message
    ellipsis_usage := substrIn ("...").data message || substrIn ("…").data message
    comma_frequency :=
      if message = [] then 0 else (countChar ',' message : ℚ) / (message.length : ℚ)
    quotation_usage :=
      0 < countChar '"' message || 0 < countChar apos message }

/-- Stop words of PersonalityLearner.extract_keywords. -/
def stop_words : List String :=
  ["the", "a", "an", "and", "or", "but", "in", "on", "at", "to", "for",
   "of", "with", "by", "is", "are", "was", "were", "be", "been", "have",
   "has", "had", "do", "does", "did", "will", "would", "could", "should",
   "i", "you", "he", "she", "it", "we", "they", "my", "your", "his",
   "her", "our", "their", "this", "that", "these", "those"]

/-- PersonalityLearner.extract_keywords: alphabetic whole words of the
lower-cased message, longer than three characters and not stop words,
deduplicated.  A maximal word-character run matches the bounded
alphabetic-word regex exactly when the whole run is alphabetic. -/
def extract_keywords (message : Str) : List String :=
  let words := (findAll (matchClassRun isWordChar) (pyLower message)).filter
    (fun w => w.all Char.isAlpha)
  pyDedup ((words.filter
    (fun w => 3 < w.length && !(stop_words.contains (String.mk w)))).map String.mk)

/-- PersonalityLearner.detect_greetings: the greeting style dict scanned in
insertion order. -/
def detect_greetings (message : Str) : Option String :=
  let lower := pyStrip (pyLower message)
  if searchWB [("hey").data, ("hi").data, ("hello").data, ("yo").data,
      ("sup").data, ("what").data ++ [apos] ++ ("s up").data] lower then
    some "casual"
  else if searchWB [("good morning").data, ("good afternoon").data,
      ("good evening").data, ("greetings").data] lower then some "formal"
  else if searchWB [("hey there").data, ("hi there").data,
      ("hello there").data] lower then some "enthusiastic"
  else none

/-- PersonalityLearner.detect_agreement. -/
def detect_agreement (message : Str) : Option String :=
  let lower := pyLower message
  if searchWB [("yes").data, ("yeah").data, ("yep").data, ("absolutely").data,
      ("definitely").data, ("for sure").data, ("exactly").data,
      ("true").data, ("facts").data] lower then some "agreement"
  else if searchWB [("no").data, ("nah").data, ("nope").data,
      ("not really").data, ("disagree").data, ("wrong").data] lower then
    some "disagreement"
  else none

/-- Matcher for a maximal run of two or more upper-case letters between word
boundaries.  Backtracking inside the greedy run never helps because any
shorter split point is followed by an upper-case letter, so the run matches
exactly when the character after it is not a word character. -/
def matchCapsWord : Matcher := fun prev s =>
  if boundaryBefore prev then
    let run := s.takeWhile Char.isUpper
    if 2 ≤ run.length && boundaryAfter (s.drop run.length) then
      some (run, s.drop run.length)
    else none
  else none

/-- Matcher for a repeated-letter run: a word character occurring three or
more times in a row, matched greedily. -/
def matchRepeatRun : Matcher := fun _ s =>
  match s with
  | [] => none
  | c :: rest =>
    if isWordChar c && 2 ≤ (rest.takeWhile (· == c)).length then
      some (c :: rest.takeWhile (· == c), rest.drop (rest.takeWhile (· == c)).length)
    else none

/-- PersonalityLearner.measure_excitement, capped at 2.0. -/
def measure_excitement (message : Str) : ℚ :=
  let lower := pyLower message
  let score : ℚ :=
    (countChar '!' message : ℚ) * (3/10)
    + (findCount matchCapsWord message : ℚ) * (5/10)
    + (findCount (matchAltWB [("wow").data, ("amazing").data, ("awesome").data,
        ("incredible").data, ("fantastic").data, ("omg").data, ("yooo").data,
        ("no way").data]) lower : ℚ) * (4/10)
    + (findCount matchRepeatRun lower : ℚ) * (2/10)
  min score 2

/-- The transient pattern dict built by analyze_message_patterns. -/
structure MessagePatterns where
  length : Nat
  word_count : Nat
  sentence_count : Nat
  exclamation_count : Nat
  question_count : Nat
  caps_ratio : ℚ
  emoji_usage : List (String × Nat)
  common_phrases : List (String × Nat)
  tone_indicators : List (String × ℚ)
  punctuation_style : PunctuationFeatures
  topic_keywords : List String
  greeting_patterns : Option String
  agreement_patterns : Option String
  excitement_level : ℚ
  deriving DecidableEq

/-- PersonalityLearner.analyze_message_patterns.  The piece count of
re.split over punctuation runs is the number of runs plus one. -/
def analyze_message_patterns (message : Str) : MessagePatterns :=
  { length := message.length
    word_count := (pySplitWs message).length
    sentence_count :=
      findCount (matchClassRun (fun c => c == '.' || c == '!' || c == '?')) message + 1
    exclamation_count := countChar '!' message
    question_count := countChar '?' message
    caps_ratio :=
      if message = [] then 0
      else (message.countP Char.isUpper : ℚ) / (message.length : ℚ)
    emoji_usage := extract_emojis message
    common_phrases := extract_phrases message
    tone_indicators := analyze_tone message
    punctuation_style := analyze_punctuation message
    topic_keywords := extract_keywords message
    greeting_patterns := detect_greetings message
    agreement_patterns := detect_agreement message
    excitement_level := measure_excitement message }

/-! ## Profile update (PersonalityLearner.update_profile_with_patterns) -/

/-- The exponential smoothing step used for the phrase and emoji maps:
newWeight = oldWeight * 0.8 + observedCount * 0.2. -/
def smoothUpdate (old obs : ℚ) : ℚ := old * (8/10) + obs * (2/10)

/-- One smoothed-map pass: for each observed (key, count) pair, in order,
read the current weight (default 0) and overwrite it with the smoothed
value; keys not observed are not touched. -/
def smoothMapUpdate (m : List (String × ℚ)) (observed : List (String × Nat)) :
    List (String × ℚ) :=
  observed.foldl
    (fun acc kv => dictSet acc kv.1 (smoothUpdate (dictGetD acc kv.1 0) (kv.2 : ℚ)))
    m

/-- The mood label stored for a tone whose score exceeds 0.5. -/
def moodLabel (patterns : MessagePatterns) : String :=
  if patterns.caps_ratio > 3/10 then "emphatic_caps"
  else if patterns.exclamation_count > 2 then "enthusiastic_exclamations"
  else "expressive"

/-- The mood_patterns pass: significant tones (score above 0.1) whose score
also exceeds 0.5 get a categorical label; others are left unchanged.  The
source reads the current mood value but never uses it. -/
def moodPatternsUpdate (mp : List (String × String))
    (patterns : MessagePatterns) : List (String × String) :=
  patterns.tone_indicators.foldl
    (fun acc tv =>
      if tv.2 > 1/10 then
        if tv.2 > 5/10 then dictSet acc tv.1 (moodLabel patterns) else acc
      else acc)
    mp

/-- The three-bucket response length preference of the latest message. -/
def lengthBucket (len : Nat) : String :=
  if len < 50 then "short" else if len < 150 then "medium" else "long"

/-- The confidence step function of the analyzed-message count, as written
at the end of update_profile_with_patterns. -/
def confidence_step (n : Nat) : ℚ :=
  if n < 10 then 2/10 else if n < 50 then 5/10 else if n < 200 then 8/10 else 95/100

/-- The reliability band stored together with the confidence score. -/
def reliability_step (n : Nat) : String :=
  if n < 10 then "low" else if n < 50 then "medium"
  else if n < 200 then "high" else "very_high"

/-- PersonalityLearner.update_profile_with_patterns.  The caps-ratio guard
of the source is always true because analyze_message_patterns always emits
the key; the length guard keeps the previous preference for an empty
message. -/
def update_profile_with_patterns (profile : Profile)
    (patterns : MessagePatterns) : Profile :=
  let cs := profile.communication_style
  let cc := profile.conversation_context
  let lp := profile.learned_patterns
  let md := profile.learning_metadata
  let phrases := smoothMapUpdate cs.common_phrases patterns.common_phrases
  let emojis := smoothMapUpdate cs.emoji_usage patterns.emoji_usage
  let moods := moodPatternsUpdate cc.mood_patterns patterns
  let lengthPref :=
    if 0 < patterns.length then lengthBucket patterns.length
    else cs.response_length_preference
  let caps := cs.caps_usage_frequency * (9/10) + patterns.caps_ratio * (1/10)
  let greeting :=
    match patterns.greeting_patterns with
    | some g => g
    | none => lp.greeting_style
  let topics :=
    if patterns.topic_keywords ≠ [] then
      (pyDedup (cc.favorite_topics ++ patterns.topic_keywords)).take 50
    else cc.favorite_topics
  let newCount := md.total_messages_analyzed + 1
  { profile with
    communication_style :=
      { cs with
        common_phrases := phrases
        emoji_usage := emojis
        response_length_preference := lengthPref
        caps_usage_frequency := caps }
    learned_patterns := { lp with greeting_style := greeting }
    conversation_context :=
      { cc with mood_patterns := moods, favorite_topics := topics }
    learning_metadata :=
      { md with
        total_messages_analyzed := newCount
        confidence_score := confidence_step newCount
        pattern_reliability := reliability_step newCount } }

/-- PersonalityLearner.learn_from_user_message, projected onto the profile
state: messages that are empty or whose stripped text is shorter than three
characters are ignored; otherwise the profile is updated with the analyzed
patterns.  The conversation buffer and the save bookkeeping do not touch the
profile. -/
def learn_from_user_message (profile : Profile) (message : Str) : Profile :=
  if message = [] ∨ (pyStrip message).length < 3 then profile
  else update_profile_with_patterns profile (analyze_message_patterns message)

/-! ## Gating policy (AutoReplyManager.calculate_reply_probability) -/

/-- The context dict read by the gating policy; only the recent message
count is consulted. -/
structure MsgContext where
  recent_message_count : Nat
  deriving DecidableEq

/-- The emotionally loaded keywords of the gating policy. -/
def emotional_words : List Str :=
  [("excited").data, ("sad").data, ("happy").data, ("frustrated").data,
   ("amazing").data, ("terrible").data]

/-- AutoReplyManager.calculate_reply_probability: a 0.6 base rate, raised
by 0.3 for a question mark, by 0.2 for more than ten words, by 0.25 for an
emotional keyword, lowered by 0.3 for more than five recent messages, and
capped at 0.9. -/
def calculate_reply_probability (message : Str) (context : MsgContext) : ℚ :=
  let p : ℚ := 6/10
  let p := if hasChar '?' message then p + 3/10 else p
  let p := if 10 < (pySplitWs message).length then p + 2/10 else p
  let p := if emotional_words.any (fun w => substrIn w (pyLower message)) then
    p + 25/100 else p
  let p := if 5 < context.recent_message_count then p - 3/10 else p
  min p (9/10)

/-! ## Message classification (AutoReplyManager.analyze_message) -/

/-- The message analysis dict; the topics and urgency entries are constants
in the source. -/
structure MessageAnalysis where
  type : String
  sentiment : String
  urgency : String
  emotional_tone : String
  deriving DecidableEq

/-- Greeting keywords of the type classifier (substring containment). -/
def greeting_words : List Str :=
  [("hello").data, ("hi").data, ("hey").data, ("good morning").data,
   ("good evening").data]

/-- Gratitude keywords of the type classifier. -/
def gratitude_words : List Str :=
  [("thanks").data, ("thank you").data, ("appreciate").data, ("grateful").data]

/-- Help-request keywords of the type classifier. -/
def help_words : List Str :=
  [("help").data, ("problem").data, ("issue").data, ("trouble").data]

/-- AutoReplyManager.analyze_message: the type if/elif chain checks the
question mark first, then greetings, then gratitude, then help requests,
with statement as the fallback. -/
def analyze_message (message : Str) : MessageAnalysis :=
  let lower := pyLower message
  let ty :=
    if hasChar '?' message then "question"
    else if greeting_words.any (fun w => substrIn w lower) then "greeting"
    else if gratitude_words.any (fun w => substrIn w lower) then "gratitude"
    else if help_words.any (fun w => substrIn w lower) then "help_request"
    else "statement"
  let positives := [("good").data, ("great").data, ("awesome").data,
    ("amazing").data, ("love").data, ("happy").data, ("excited").data]
  let negatives := [("bad").data, ("terrible").data, ("sad").data,
    ("frustrated").data, ("angry").data, ("disappointed").data]
  let pc := positives.countP (fun w => substrIn w lower)
  let nc := negatives.countP (fun w => substrIn w lower)
  let sentiment :=
    if nc < pc then "positive" else if pc < nc then "negative" else "neutral"
  let tone :=
    if [("!").data, ("wow").data, ("omg").data, ("amazing").data,
        ("incredible").data].any (fun w => substrIn w lower) then "excited"
    else if [("sad").data, ("disappointed").data, ("upset").data].any
        (fun w => substrIn w lower) then "sad"
    else if [("frustrated").data, ("angry").data, ("annoyed").data].any
        (fun w => substrIn w lower) then "frustrated"
    else "neutral"
  { type := ty, sentiment := sentiment, urgency := "normal",
    emotional_tone := tone }

/-- A classification rule list: labels paired with their tests, tried in
order with statement as the fallback. -/
def firstMatchType (rules : List (String × (Str → Bool))) (message : Str) :
    String :=
  match rules.find? (fun r => r.2 message) with
  | some r => r.1
  | none => "statement"

/-- The ordered rule list actually implemented by analyze_message. -/
def code_type_rules : List (String × (Str → Bool)) :=
  [("question", fun m => hasChar '?' m),
   ("greeting", fun m => greeting_words.any (fun w => substrIn w (pyLower m))),
   ("gratitude", fun m => gratitude_words.any (fun w => substrIn w (pyLower m))),
   ("help_request", fun m => help_words.any (fun w => substrIn w (pyLower m)))]

/-- Modelled from the spec sentence for the classifier: first-match-wins
over greeting, then question, then help-request, then gratitude, with the
statement fallback, reusing the keyword tests of the source. -/
def spec_type_rules : List (String × (Str → Bool)) :=
  [("greeting", fun m => greeting_words.any (fun w => substrIn w (pyLower m))),
   ("question", fun m => hasChar '?' m),
   ("help_request", fun m => help_words.any (fun w => substrIn w (pyLower m))),
   ("gratitude", fun m => gratitude_words.any (fun w => substrIn w (pyLower m)))]

/-! ## The auto-reply dispatch path (WhatsAppClient.process_text_message)

The auto-reply block at the end of process_text_message runs inside the
message-handling coroutine: when the gating accepts a counterpart message
of an enabled sender, the coroutine computes the reply, sleeps for the
delay, and then sends unconditionally.  Disable and enable commands and
other accepted messages run in their own handler invocations (the file
polling loop and the test-message task both call handle_incoming_message),
so the observable behaviour is the interleaving of these atomic steps:
enabling, disabling, accepting a message of an enabled sender (which
creates a sleeping send), and a sleeping send reaching its dispatch point.
The model below is that event system; a pending entry records the sender
and the styled reply of one coroutine parked at the delay. -/

structure SchedState where
  enabled_users : List String
  pending : List (String × String)
  sent : List (String × String)
  deriving DecidableEq

/-- The initial state: no users enabled, nothing pending or sent. -/
def initialSched : SchedState :=
  { enabled_users := [], pending := [], sent := [] }

inductive SchedEvent where
  /-- AutoReplyManager.enable_auto_reply: set insertion. -/
  | enable (user : String)
  /-- AutoReplyManager.disable_auto_reply: set discard, nothing else. -/
  | disable (user : String)
  /-- A counterpart message for which is_enabled held and the gating and
  generation succeeded: the handler reaches the delay sleep with a styled
  reply in hand. -/
  | accepted (user : String) (reply : String)
  /-- The sleep of pending entry number i elapses: the parked coroutine
  resumes and sends the reply with no further checks. -/
  | fire (i : Nat)
  deriving DecidableEq

/-- One atomic step of the auto-reply dispatch path. -/
def schedStep (s : SchedState) (e : SchedEvent) : SchedState :=
  match e with
  | .enable u =>
    if s.enabled_users.contains u then s
    else { s with enabled_users := s.enabled_users ++ [u] }
  | .disable u =>
    { s with enabled_users := s.enabled_users.filter (fun v => v ≠ u) }
  | .accepted u r =>
    if s.enabled_users.contains u then { s with pending := s.pending ++ [(u, r)] }
    else s
  | .fire i =>
    match s.pending[i]? with
    | some entry =>
      { s with pending := s.pending.eraseIdx i, sent := s.sent ++ [entry] }
    | none => s

/-- Run a trace of events from a state. -/
def schedRun (s : SchedState) (es : List SchedEvent) : SchedState :=
  es.foldl schedStep s

/-! ## Style synthesis (StyleMimicker.apply_user_style)

The randomized flourishes are derandomized: every random comparison outcome
and every random.choice index is an input, carried by MimicRand.  The
indexed draws are the outcomes for the successive loop iterations that
reach the draw.  The try/except wrapper of apply_user_style is modelled by
the fail flag: a raised internal exception makes the function return the
unmodified draft. -/

structure MimicRand where
  fail : Bool
  length_elaborate : Bool
  length_choice : Nat
  punct_exclaim : Bool
  punct_ellipsis : Bool
  caps_draw : Nat → Bool
  phrase_draw : Nat → Bool
  emoji_draw : Nat → Bool

/-- A constant-outcome randomness assignment for concrete evaluation. -/
def noRand : MimicRand :=
  { fail := false, length_elaborate := false, length_choice := 0
    punct_exclaim := false, punct_ellipsis := false
    caps_draw := fun _ => false, phrase_draw := fun _ => false
    emoji_draw := fun _ => false }

/-- Python random.choice as selection by a given index. -/
def listChoice (l : List Str) (i : Nat) : Str := l.getD (i % l.length) []

/-- The elaboration bank of StyleMimicker.adjust_response_length. -/
def elaboration_bank : List Str :=
  [("Let me explain further.").data,
   ("Here").data ++ [apos] ++ ("s more detail on that.").data,
   ("There").data ++ [apos] ++ ("s actually more to it.").data,
   ("I can expand on this.").data]

/-- StyleMimicker.adjust_response_length. -/
def adjust_response_length (profile : Profile) (r : MimicRand)
    (response : Str) : Str :=
  let pref := profile.communication_style.response_length_preference
  let sentences := ((splitOnPred (fun c => c == '.' || c == '!' || c == '?')
      response).map pyStrip).filter (fun s => s ≠ [])
  if pref = "short" ∧ 2 < sentences.length then
    joinWith ((". ").data) (sentences.take 2) ++ (".").data
  else if pref = "long" ∧ sentences.length < 3 then
    if r.length_elaborate then
      response ++ (" ").data ++ listChoice elaboration_bank r.length_choice
    else response
  else response

/-- A substitution matcher: consumed original text, replacement text, and
the remaining suffix. -/
def SubMatcher := Option Char → Str → Option (Str × Str × Str)

/-- Leftmost non-overlapping substitution (the model of re.sub for the
fixed patterns used by the source).  Exhausted fuel returns the suffix
unchanged; fuel is the string length, and every match consumes at least
one character. -/
def subScan (m : SubMatcher) : Nat → Option Char → Str → Str
  | 0, _, s => s
  | _ + 1, _, [] => []
  | fuel + 1, prev, c :: rest =>
    match m prev (c :: rest) with
    | some (consumed, repl, rest2) => repl ++ subScan m fuel consumed.getLast? rest2
    | none => c :: subScan m fuel (some c) rest

/-- Matcher of the minimal-punctuation substitution: a period followed by
whitespace and an upper-case letter loses the period and keeps the
whitespace.  Backtracking the greedy whitespace run never helps because any
shorter run is followed by whitespace, not an upper-case letter. -/
def matchPeriodWsCap : SubMatcher := fun _ s =>
  match s with
  | [] => none
  | c :: rest =>
    if c == '.' then
      let ws := rest.takeWhile Char.isWhitespace
      let rest2 := rest.drop ws.length
      if !ws.isEmpty && ((rest2.head?.map Char.isUpper).getD false) then
        some (c :: ws, ws, rest2)
      else none
    else none

/-- StyleMimicker.apply_punctuation_style. -/
def apply_punctuation_style (profile : Profile) (r : MimicRand)
    (response : Str) : Str :=
  let ps := profile.communication_style.punctuation_style
  let response :=
    if ps = "minimal_periods_lots_exclamations" then
      if r.punct_exclaim then pyReplaceChar '.' (("!").data) response else response
    else if ps = "minimal_punctuation" then
      subScan matchPeriodWsCap response.length none response
    else response
  if r.punct_ellipsis ∧ profile.communication_style.has_ellipsis_usage_key then
    pyReplaceChar '.' (("...").data) response
  else response

/-- The emphasis whitelist of StyleMimicker.apply_caps_patterns. -/
def emphasis_words : List Str :=
  [("amazing").data, ("awesome").data, ("incredible").data, ("wow").data,
   ("yes").data, ("definitely").data]

/-- StyleMimicker.apply_caps_patterns.  The source splits into words and
rejoins with single spaces when the caps frequency exceeds 0.2. -/
def apply_caps_patterns (profile : Profile) (r : MimicRand)
    (response : Str) : Str :=
  let cf := profile.communication_style.caps_usage_frequency
  if cf > 2/10 then
    let words := (pySplitWs response).mapIdx
      (fun i w =>
        if 3 < w.length ∧ r.caps_draw i ∧ emphasis_words.contains (pyLower w)
        then pyUpper w else w)
    joinWith ((" ").data) words
  else response

/-- Python sorted(items, key weight, reverse=True): stable descending sort
by the numeric value. -/
def sortByWeightDesc (l : List (String × ℚ)) : List (String × ℚ) :=
  l.mergeSort (fun a b => b.2 ≤ a.2)

/-- The phrase-insertion loop of StyleMimicker.insert_common_phrases: the
first of the top five phrases whose weight exceeds 5 and whose draw
succeeds is inserted (when it belongs to one of the three known groups) and
the loop stops. -/
def insertPhraseLoop (r : MimicRand) :
    List (String × ℚ) → Nat → Str → Str
  | [], _, resp => resp
  | (phrase, freq) :: rest, i, resp =>
    if freq > 5 ∧ r.phrase_draw i then
      let pl := pyLower phrase.data
      if [("lol").data, ("haha").data, ("lmao").data].contains pl then
        resp ++ (' ' :: phrase.data)
      else if [("btw").data, ("oh").data].contains pl then
        pyCapitalize phrase.data ++ (", ").data ++ pyLower resp
      else if [("facts").data, ("absolutely").data, ("definitely").data].contains pl then
        pyCapitalize phrase.data ++ ("! ").data ++ resp
      else resp
    else insertPhraseLoop r rest (i + 1) resp

/-- StyleMimicker.insert_common_phrases. -/
def insert_common_phrases (profile : Profile) (r : MimicRand)
    (response : Str) : Str :=
  let cp := profile.communication_style.common_phrases
  if cp = [] then response
  else insertPhraseLoop r ((sortByWeightDesc cp).take 5) 0 response

/-- The emoji-appending loop of StyleMimicker.add_learned_emojis: the first
of the top ten emojis with weight above 3 whose content condition and draw
succeed is appended and the loop stops. -/
def emojiLoop (r : MimicRand) (lower : Str) :
    List (String × ℚ) → Nat → Str → Str
  | [], _, resp => resp
  | (emoji, freq) :: rest, i, resp =>
    if freq > 3 then
      let add :=
        if ["😂", "🤣", "😄"].contains emoji ∧
            [("funny").data, ("haha").data, ("joke").data, ("lol").data].any
              (fun w => substrIn w lower) then r.emoji_draw i
        else if ["🔥", "💯", "⭐"].contains emoji ∧
            [("awesome").data, ("amazing").data, ("great").data,
             ("perfect").data].any (fun w => substrIn w lower) then
          r.emoji_draw i
        else if ["🤔", "🧐"].contains emoji ∧
            [("think").data, ("consider").data, ("maybe").data,
             ("wonder").data].any (fun w => substrIn w lower) then
          r.emoji_draw i
        else if ["💪", "🙌", "👏"].contains emoji ∧
            [("great job").data, ("well done").data, ("success").data,
             ("achieve").data].any (fun w => substrIn w lower) then
          r.emoji_draw i
        else if freq > 20 then r.emoji_draw i
        else false
      if add then resp ++ (' ' :: emoji.data)
      else emojiLoop r lower rest (i + 1) resp
    else emojiLoop r lower rest (i + 1) resp

/-- StyleMimicker.add_learned_emojis. -/
def add_learned_emojis (profile : Profile) (r : MimicRand)
    (response : Str) : Str :=
  let eu := profile.communication_style.emoji_usage
  if eu = [] then response
  else emojiLoop r (pyLower response) ((sortByWeightDesc eu).take 10) 0 response

/-- StyleMimicker.apply_contextual_tone.  The context argument of the
source is never read. -/
def apply_contextual_tone (profile : Profile) (response : Str) : Str :=
  let moods := profile.conversation_context.mood_patterns
  let lower := pyLower response
  if [("excited").data, ("amazing").data, ("awesome").data].any
      (fun w => substrIn w lower) then
    if dictGetD moods "excited" "enthusiastic_responses"
        = "caps_multiple_exclamations" then
      let resp := pyReplaceChar '!' (("!!!").data) response
      let words := (pySplitWs resp).map
        (fun w =>
          if [("wow").data, ("amazing").data, ("awesome").data,
              ("incredible").data].contains (pyLower w) then pyUpper w else w)
      joinWith ((" ").data) words
    else response
  else if [("casual").data, ("okay").data, ("sure").data].any
      (fun w => substrIn w lower) then
    if dictGetD moods "casual" "relaxed_tone" = "lowercase_minimal_punctuation" then
      ((pyLower response).filter (fun c => c ≠ '!')).filter (fun c => c ≠ '.')
    else response
  else response

/-- Matcher of one case-insensitive whole-word replacement of
apply_greeting_closing_patterns; the key is a lower-case literal. -/
def matchWBIC (key repl : Str) : SubMatcher := fun prev s =>
  let taken := s.take key.length
  if boundaryBefore prev && (pyLower taken == key) && (taken.length == key.length)
      && boundaryAfter (s.drop key.length) then
    some (taken, repl, s.drop key.length)
  else none

/-- The greeting replacement tables of apply_greeting_closing_patterns, in
dict insertion order. -/
def greeting_replacements (style : String) : List (Str × Str) :=
  if style = "casual" then
    [(("hello").data, ("hey").data), (("hi").data, ("yo").data),
     (("good morning").data, ("morning").data)]
  else if style = "enthusiastic" then
    [(("hello").data, ("hey there!").data), (("hi").data, ("hi there!").data)]
  else if style = "formal" then
    [(("hey").data, ("hello").data), (("yo").data, ("good day").data)]
  else []

/-- StyleMimicker.apply_greeting_closing_patterns. -/
def apply_greeting_closing_patterns (profile : Profile) (response : Str) :
    Str :=
  if [("hello").data, ("hi").data, ("hey").data].any
      (fun w => substrIn w (pyLower response)) then
    (greeting_replacements profile.learned_patterns.greeting_style).foldl
      (fun resp fr => subScan (matchWBIC fr.1 fr.2) resp.length none resp)
      response
  else response

/-- StyleMimicker.apply_user_style: the style pipeline, guarded by the
emptiness check at the top, the final strip, and the exception fallback
that returns the unmodified draft. -/
def apply_user_style (profile : Profile) (r : MimicRand)
    (base_response : Str) : Str :=
  if r.fail then base_response
  else if pyStrip base_response = [] then base_response
  else
    let s := adjust_response_length profile r base_response
    let s := apply_punctuation_style profile r s
    let s := apply_caps_patterns profile r s
    let s := insert_common_phrases profile r s
    let s := add_learned_emojis profile r s
    let s := apply_contextual_tone profile s
    let s := apply_greeting_closing_patterns profile s
    pyStrip s

/-! ## Helper lemmas -/

theorem contains_filter_ne (l : List String) (u : String) :
    ((l.filter (fun v => v ≠ u)).contains u) = false := by
  induction l with
  | nil => rfl
  | cons x xs ih =>
    by_cases hx : x = u
    · simp [hx, ih]
    · simp [List.filter_cons, hx, List.contains_cons, ih, Ne.symm hx]

theorem dictGet_dictSet_self {α : Type} (m : List (String × α)) (k : String)
    (v : α) : dictGet (dictSet m k v) k = some v := by
  induction m with
  | nil => simp [dictSet, dictGet]
  | cons p rest ih =>
    by_cases hp : p.1 = k
    · simp [dictSet, hp, dictGet]
    · simpa [dictSet, hp, dictGet] using ih

theorem dictGet_dictSet_ne {α : Type} (m : List (String × α)) (k k2 : String)
    (v : α) (h : k2 ≠ k) : dictGet (dictSet m k v) k2 = dictGet m k2 := by
  induction m with
  | nil => simp [dictSet, dictGet, Ne.symm h]
  | cons p rest ih =>
    by_cases hp : p.1 = k
    · simp [dictSet, hp, dictGet, Ne.symm h]
    · by_cases hp2 : p.1 = k2
      · simp [dictSet, hp, dictGet, hp2, h]
      · simpa [dictSet, hp, dictGet, hp2] using ih

/-! ## C5, C9, C10: learner bookkeeping -/

/-- C5: every profile update increments (never decrements) the analyzed
message counter, and the stored confidence score equals the step function
of the updated counter with thresholds 10, 50, 200. -/
theorem confidence_is_step_of_messages (profile : Profile)
    (patterns : MessagePatterns) :
    profile.learning_metadata.total_messages_analyzed ≤
        (update_profile_with_patterns profile patterns).learning_metadata.total_messages_analyzed
      ∧ (update_profile_with_patterns profile patterns).learning_metadata.confidence_score
        = confidence_step
            (update_profile_with_patterns profile
              patterns).learning_metadata.total_messages_analyzed :=
  ⟨by simp [update_profile_with_patterns], rfl⟩

/-- C9: one smoothing step never moves a weight further than the distance
from the old weight to the raw observation. -/
theorem smoothing_no_overshoot (old obs : ℚ) :
    |smoothUpdate old obs - old| ≤ |obs - old| := by
  have h : smoothUpdate old obs - old = (2/10) * (obs - old) := by
    unfold smoothUpdate; ring
  rw [h, abs_mul]
  have h2 : |((2:ℚ)/10)| = 2/10 := by norm_num
  rw [h2]
  nlinarith [abs_nonneg (obs - old)]

/-- C10: a message whose stripped text is shorter than three characters
(the empty message included) leaves the profile completely unchanged. -/
theorem short_message_leaves_profile_unchanged (profile : Profile)
    (message : Str) (h : (pyStrip message).length < 3) :
    learn_from_user_message profile message = profile := by
  unfold learn_from_user_message
  exact if_pos (Or.inr h)

/-- Witness for C10 at the one-character message a. -/
theorem short_message_leaves_profile_unchanged_witness :
    (pyStrip (("a").data)).length < 3
      ∧ learn_from_user_message default_profile (("a").data) = default_profile :=
  ⟨by decide,
   short_message_leaves_profile_unchanged default_profile (("a").data) (by decide)⟩

/-! ## C1, C2: the auto-reply dispatch path -/

/-- Counterexample for C1: auto-reply is enabled for x, a reply is accepted
and parked at its delay, auto-reply is disabled, and then the delay
elapses; the reply is sent anyway, because the dispatch point after the
sleep performs no enabled re-check. -/
theorem disable_does_not_cancel_counterexample :
    (schedRun initialSched
        [.enable "x", .accepted "x" "r", .disable "x", .fire 0]).sent
      = [("x", "r")] := by decide

/-- C1 amended: the enabled check happens only at scheduling time.  Once an
entry is pending, disabling the target does not cancel it: when the delay
elapses the entry is dispatched unconditionally, even though the target is
no longer enabled. -/
theorem pending_fires_despite_disable (s : SchedState) (u reply : String)
    (i : Nat) (h : s.pending[i]? = some (u, reply)) :
    (schedRun s [.disable u, .fire i]).sent = s.sent ++ [(u, reply)]
      ∧ ((schedRun s [.disable u]).enabled_users.contains u) = false := by
  constructor
  · simp [schedRun, schedStep, h]
  · simp [schedRun, schedStep, contains_filter_ne]

/-- Witness for the amended C1 at a one-entry state. -/
theorem pending_fires_despite_disable_witness :
    (SchedState.mk [] [("x", "r")] []).pending[0]? = some ("x", "r")
      ∧ (schedRun (SchedState.mk [] [("x", "r")] []) [.disable "x", .fire 0]).sent
          = [] ++ [("x", "r")]
      ∧ ((schedRun (SchedState.mk [] [("x", "r")] [])
            [.disable "x"]).enabled_users.contains "x") = false :=
  ⟨by decide,
   (pending_fires_despite_disable (SchedState.mk [] [("x", "r")] []) "x" "r" 0
      (by decide)).1,
   (pending_fires_despite_disable (SchedState.mk [] [("x", "r")] []) "x" "r" 0
      (by decide)).2⟩

/-- Counterexample for C2: two accepted messages of the same enabled user
leave two live pending entries, and both are delivered when their delays
elapse; nothing supersedes or cancels the earlier one. -/
theorem two_pending_entries_counterexample :
    (schedRun initialSched
        [.enable "x", .accepted "x" "r1", .accepted "x" "r2"]).pending
      = [("x", "r1"), ("x", "r2")]
      ∧ (schedRun initialSched
          [.enable "x", .accepted "x" "r1", .accepted "x" "r2",
           .fire 0, .fire 0]).sent
        = [("x", "r1"), ("x", "r2")] := by decide

/-- C2 amended: an acceptance for an enabled target appends a fresh pending
entry and leaves every earlier pending entry in place, so pending replies
for one target stack instead of superseding each other. -/
theorem accepted_appends_pending (s : SchedState) (u reply : String)
    (h : s.enabled_users.contains u = true) :
    (schedStep s (.accepted u reply)).pending = s.pending ++ [(u, reply)]
      ∧ (schedStep s (.accepted u reply)).sent = s.sent := by
  have h2 : u ∈ s.enabled_users := by simpa using h
  constructor <;> simp [schedStep, h2]

/-- Witness for the amended C2 at a state with one pending entry for x. -/
theorem accepted_appends_pending_witness :
    ((SchedState.mk ["x"] [("x", "r1")] []).enabled_users.contains "x") = true
      ∧ (schedStep (SchedState.mk ["x"] [("x", "r1")] [])
            (.accepted "x" "r2")).pending = [("x", "r1")] ++ [("x", "r2")]
      ∧ (schedStep (SchedState.mk ["x"] [("x", "r1")] [])
            (.accepted "x" "r2")).sent = [] :=
  ⟨by decide,
   (accepted_appends_pending (SchedState.mk ["x"] [("x", "r1")] []) "x" "r2"
      (by decide)).1,
   (accepted_appends_pending (SchedState.mk ["x"] [("x", "r1")] []) "x" "r2"
      (by decide)).2⟩

/-! ## C7: the gating probability -/

/-- C7: for a fifteen-word question with no recent volume the acceptance
probability strictly exceeds the 0.6 base rate and stays strictly below
one (it is clamped at 0.9). -/
theorem gating_boost_over_base (message : Str) (context : MsgContext)
    (hq : hasChar '?' message = true)
    (hw : (pySplitWs message).length = 15)
    (hr : context.recent_message_count = 0) :
    (6:ℚ)/10 < calculate_reply_probability message context
      ∧ calculate_reply_probability message context < 1 := by
  cases hq2 : emotional_words.any (fun w => substrIn w (pyLower message)) <;>
    simp [calculate_reply_probability, hq, hw, hr, hq2, min_def] <;>
    norm_num

/-- Witness for C7 at a concrete fifteen-word question. -/
theorem gating_boost_over_base_witness :
    hasChar '?' (("What do you think about the new plan for the big launch day next week?").data) = true
      ∧ (pySplitWs (("What do you think about the new plan for the big launch day next week?").data)).length = 15
      ∧ (MsgContext.mk 0).recent_message_count = 0
      ∧ (6:ℚ)/10 < calculate_reply_probability
          (("What do you think about the new plan for the big launch day next week?").data)
          (MsgContext.mk 0)
      ∧ calculate_reply_probability
          (("What do you think about the new plan for the big launch day next week?").data)
          (MsgContext.mk 0) < 1 := by
  refine ⟨by decide, by decide, rfl, ?_, ?_⟩
  · exact (gating_boost_over_base _ _ (by decide) (by decide) rfl).1
  · exact (gating_boost_over_base _ _ (by decide) (by decide) rfl).2

/-! ## C6: message-type classification order -/

/-- Counterexample for C6: the message hi? is classified as a question by
the code, while the rule order stated by the claim (greeting first) would
classify it as a greeting. -/
theorem classification_order_counterexample :
    (analyze_message (("hi?").data)).type = "question"
      ∧ firstMatchType spec_type_rules (("hi?").data) = "greeting"
      ∧ (analyze_message (("hi?").data)).type
          ≠ firstMatchType spec_type_rules (("hi?").data) := by decide

/-- C6 amended: classification is first-match-wins, but over the order
question, then greeting, then gratitude, then help-request, with statement
as the fallback; question detection is exactly the presence of the
question mark. -/
theorem classification_is_question_first (message : Str) :
    (analyze_message message).type = firstMatchType code_type_rules message
      ∧ ((analyze_message message).type = "question"
          ↔ hasChar '?' message = true) := by
  cases h1 : hasChar '?' message <;>
  cases h2 : greeting_words.any (fun w => substrIn w (pyLower message)) <;>
  cases h3 : gratitude_words.any (fun w => substrIn w (pyLower message)) <;>
  cases h4 : help_words.any (fun w => substrIn w (pyLower message)) <;>
    simp [analyze_message, firstMatchType, code_type_rules, List.find?,
      h1, h2, h3, h4]

/-! ## C3: the sixty-message scenario -/

/-- Sixty short, emoji-free messages containing the bare word ok. -/
def ok_messages : List Str := List.replicate 60 (("ok ok ok").data)

/-- Sixty short, emoji-free messages containing the word okay. -/
def okay_messages : List Str := List.replicate 60 (("okay okay okay").data)

set_option maxRecDepth 100000 in
/-- Counterexample for C3: after sixty short, emoji-free messages whose
repeated word is ok, the phrase map holds no entry for ok at all (the
phrase lexicon contains okay but not ok), and the confidence score is 0.8,
not the claimed 0.5, because sixty falls in the below-200 band. -/
theorem scenario_a_counterexample :
    (ok_messages.length = 60
      ∧ ok_messages.all (fun m =>
          decide ((pySplitWs m).length < 10) && (extract_emojis m).isEmpty
            && substrIn (("ok").data) m) = true)
      ∧ dictGet ((ok_messages.foldl learn_from_user_message
            default_profile).communication_style.common_phrases) "ok" = none
      ∧ (ok_messages.foldl learn_from_user_message
            default_profile).learning_metadata.confidence_score ≠ 5/10
      ∧ (ok_messages.foldl learn_from_user_message
            default_profile).learning_metadata.confidence_score = 8/10 := by
  decide

set_option maxRecDepth 100000 in
/-- C3 amended: after sixty short, emoji-free messages repeating okay (a
word the phrase lexicon does contain), the resulting profile has the
short length preference from the last message bucket, confidence score
0.8 (the high band, since fifty ≤ sixty < two hundred), and okay present
in the phrase map with a strictly positive weight; the bare word ok never
enters the map. -/
theorem scenario_a_amended :
    (okay_messages.length = 60
      ∧ okay_messages.all (fun m =>
          decide ((pySplitWs m).length < 10) && (extract_emojis m).isEmpty
            && substrIn (("okay").data) m) = true)
      ∧ (okay_messages.foldl learn_from_user_message
            default_profile).communication_style.response_length_preference
          = "short"
      ∧ (okay_messages.foldl learn_from_user_message
            default_profile).learning_metadata.confidence_score = 8/10
      ∧ 0 < (dictGet ((okay_messages.foldl learn_from_user_message
            default_profile).communication_style.common_phrases) "okay").getD 0 := by
  decide

/-! ## C4: which maps are smoothed -/

/-- A profile differing from the default only in the stored casual mood. -/
def profile_mood_variant : Profile :=
  { default_profile with
    conversation_context :=
      { default_profile.conversation_context with
        mood_patterns :=
          [("excited", "enthusiastic_responses"), ("casual", "calm_text"),
           ("focused", "professional_language")] } }

set_option maxRecDepth 100000 in
/-- Counterexample for C4: the tone state is not a smoothed numeric map.
Updating two profiles that differ in their stored casual-tone entry with
the same observation (casual score 1) produces identical tone states, with
the categorical label expressive; under the claimed rule
newWeight = oldWeight * 0.8 + 1 * 0.2 two distinct old values could never
map to the same new value, and the stored values are labels, not
weights. -/
theorem tone_not_smoothed_counterexample :
    default_profile.conversation_context.mood_patterns
        ≠ profile_mood_variant.conversation_context.mood_patterns
      ∧ (update_profile_with_patterns default_profile
            (analyze_message_patterns (("okay okay okay").data))).conversation_context.mood_patterns
        = (update_profile_with_patterns profile_mood_variant
            (analyze_message_patterns (("okay okay okay").data))).conversation_context.mood_patterns
      ∧ dictGet (update_profile_with_patterns default_profile
            (analyze_message_patterns (("okay okay okay").data))).conversation_context.mood_patterns
          "casual" = some "expressive"
      ∧ dictGetD (analyze_message_patterns
            (("okay okay okay").data)).tone_indicators "casual" 0 = 1 := by
  decide

theorem smoothMapUpdate_absent (m : List (String × ℚ))
    (observed : List (String × Nat)) (k : String)
    (h : ∀ kv ∈ observed, kv.1 ≠ k) :
    dictGet (smoothMapUpdate m observed) k = dictGet m k := by
  induction observed generalizing m with
  | nil => rfl
  | cons kv rest ih =>
    have hk : kv.1 ≠ k := h kv (List.mem_cons_self _ _)
    calc dictGet (smoothMapUpdate m (kv :: rest)) k
        = dictGet (smoothMapUpdate
            (dictSet m kv.1 (smoothUpdate (dictGetD m kv.1 0) (kv.2 : ℚ))) rest) k := rfl
      _ = dictGet (dictSet m kv.1 (smoothUpdate (dictGetD m kv.1 0) (kv.2 : ℚ))) k :=
          ih _ (fun x hx => h x (List.mem_cons_of_mem _ hx))
      _ = dictGet m k := dictGet_dictSet_ne _ _ _ _ (Ne.symm hk)

theorem dictGetD_dictSet_ne {α : Type} (m : List (String × α)) (k k2 : String)
    (v d : α) (h : k2 ≠ k) : dictGetD (dictSet m k v) k2 d = dictGetD m k2 d := by
  unfold dictGetD
  rw [dictGet_dictSet_ne _ _ _ _ h]

theorem smoothMapUpdate_lookup (m : List (String × ℚ))
    (observed : List (String × Nat)) (k : String)
    (hnodup : (observed.map Prod.fst).Nodup) :
    dictGet (smoothMapUpdate m observed) k =
      match observed.find? (fun kv => kv.1 == k) with
      | some kv => some (smoothUpdate (dictGetD m k 0) (kv.2 : ℚ))
      | none => dictGet m k := by
  induction observed generalizing m with
  | nil => rfl
  | cons kv rest ih =>
    have hstep : smoothMapUpdate m (kv :: rest)
        = smoothMapUpdate
            (dictSet m kv.1 (smoothUpdate (dictGetD m kv.1 0) (kv.2 : ℚ))) rest := rfl
    have hnd : kv.1 ∉ rest.map Prod.fst ∧ (rest.map Prod.fst).Nodup := by
      rw [List.map_cons, List.nodup_cons] at hnodup
      exact hnodup
    by_cases hk : kv.1 = k
    · have hrest : ∀ x ∈ rest, x.1 ≠ k := by
        intro x hx hxk
        exact hnd.1 (by
          rw [hk, ← hxk]
          exact List.mem_map_of_mem Prod.fst hx)
      rw [hstep, smoothMapUpdate_absent _ _ _ hrest]
      simp only [List.find?, hk, beq_self_eq_true]
      rw [← hk, dictGet_dictSet_self]
    · rw [hstep, ih _ hnd.2]
      have hbeq : (kv.1 == k) = false := beq_eq_false_iff_ne.mpr hk
      have hfind : (kv :: rest).find? (fun x => x.1 == k)
          = rest.find? (fun x => x.1 == k) := by
        simp [List.find?, hbeq]
      rw [hfind, dictGetD_dictSet_ne _ _ _ _ _ (Ne.symm hk),
        dictGet_dictSet_ne _ _ _ _ (Ne.symm hk)]

/-- C4 amended: the smoothing rule newWeight = oldWeight * 0.8 +
observedCount * 0.2 governs exactly the phrase and emoji maps (entries
absent from the message keep their old weight, with no separate decay);
the tone state is a categorical label map, not a smoothed numeric one. -/
theorem smoothing_uniform_on_phrases_and_emojis (profile : Profile)
    (patterns : MessagePatterns) (k : String)
    (h1 : (patterns.common_phrases.map Prod.fst).Nodup)
    (h2 : (patterns.emoji_usage.map Prod.fst).Nodup) :
    dictGet (update_profile_with_patterns profile
          patterns).communication_style.common_phrases k
        = (match patterns.common_phrases.find? (fun kv => kv.1 == k) with
           | some kv => some (smoothUpdate
               (dictGetD profile.communication_style.common_phrases k 0) (kv.2 : ℚ))
           | none => dictGet profile.communication_style.common_phrases k)
      ∧ dictGet (update_profile_with_patterns profile
            patterns).communication_style.emoji_usage k
        = (match patterns.emoji_usage.find? (fun kv => kv.1 == k) with
           | some kv => some (smoothUpdate
               (dictGetD profile.communication_style.emoji_usage k 0) (kv.2 : ℚ))
           | none => dictGet profile.communication_style.emoji_usage k) :=
  ⟨smoothMapUpdate_lookup _ _ _ h1, smoothMapUpdate_lookup _ _ _ h2⟩

/-- Witness for the amended C4 at the okay message and key okay. -/
theorem smoothing_uniform_witness :
    ((analyze_message_patterns (("okay okay okay").data)).common_phrases.map
        Prod.fst).Nodup
      ∧ ((analyze_message_patterns (("okay okay okay").data)).emoji_usage.map
          Prod.fst).Nodup
      ∧ (dictGet (update_profile_with_patterns default_profile
            (analyze_message_patterns
              (("okay okay okay").data))).communication_style.common_phrases "okay"
          = (match (analyze_message_patterns
                (("okay okay okay").data)).common_phrases.find?
                  (fun kv => kv.1 == "okay") with
             | some kv => some (smoothUpdate
                 (dictGetD default_profile.communication_style.common_phrases
                   "okay" 0) (kv.2 : ℚ))
             | none => dictGet default_profile.communication_style.common_phrases
                 "okay")) := by
  refine ⟨by decide, by decide, ?_⟩
  exact (smoothing_uniform_on_phrases_and_emojis default_profile
    (analyze_message_patterns (("okay okay okay").data)) "okay"
    (by decide) (by decide)).1

/-! ## C8: synthesis output emptiness

The development below tracks the presence of a non-whitespace character
through every stage of the style pipeline. -/

/-- The string contains at least one non-whitespace character. -/
def hasNonWs (s : Str) : Prop := ∃ c ∈ s, c.isWhitespace = false

theorem hasNonWs_append_left {a b : Str} (h : hasNonWs a) : hasNonWs (a ++ b) := by
  obtain ⟨c, hc, hws⟩ := h
  exact ⟨c, List.mem_append_left _ hc, hws⟩

theorem hasNonWs_append_right {a b : Str} (h : hasNonWs b) : hasNonWs (a ++ b) := by
  obtain ⟨c, hc, hws⟩ := h
  exact ⟨c, List.mem_append_right _ hc, hws⟩

theorem hasNonWs_cons_tail {c : Char} {t : Str} (h : hasNonWs t) :
    hasNonWs (c :: t) := by
  obtain ⟨e, he, hws⟩ := h
  exact ⟨e, List.mem_cons_of_mem _ he, hws⟩

theorem ws_cases (c : Char) (h : c.isWhitespace = true) :
    c = ' ' ∨ c = '\t' ∨ c = '\r' ∨ c = '\n' := by
  simpa [Char.isWhitespace, Bool.or_eq_true, decide_eq_true_eq, or_assoc]
    using h

theorem isUpper_not_ws (c : Char) (h : c.isUpper = true) :
    c.isWhitespace = false := by
  by_contra habs
  have h3 : c.isWhitespace = true := by simpa using habs
  rcases ws_cases c h3 with hc | hc | hc | hc <;> subst hc <;>
    exact absurd h (by decide)

theorem toNat_ofNat_small (n : Nat) (h : n < 55296) :
    (Char.ofNat n).toNat = n := by
  have hv : n.isValidChar := Or.inl h
  simp [Char.ofNat, hv, Char.ofNatAux, Char.toNat, UInt32.toNat]

theorem toUpper_not_ws (c : Char) (h : c.isWhitespace = false) :
    c.toUpper.isWhitespace = false := by
  by_contra habs
  have h3 : c.toUpper.isWhitespace = true := by simpa using habs
  have h4 := ws_cases _ h3
  unfold Char.toUpper at h4
  by_cases hc : 97 ≤ c.toNat ∧ c.toNat ≤ 122
  · rw [if_pos hc] at h4
    have h5 : (Char.ofNat (c.toNat - 32)).toNat = c.toNat - 32 :=
      toNat_ofNat_small _ (by omega)
    rcases h4 with h6 | h6 | h6 | h6 <;> rw [h6] at h5 <;>
      first
      | (rw [show Char.toNat ' ' = 32 from rfl] at h5; omega)
      | (rw [show Char.toNat '\t' = 9 from rfl] at h5; omega)
      | (rw [show Char.toNat '\r' = 13 from rfl] at h5; omega)
      | (rw [show Char.toNat '\n' = 10 from rfl] at h5; omega)
  · rw [if_neg hc] at h4
    rcases h4 with h6 | h6 | h6 | h6 <;> subst h6 <;>
      exact absurd h (by decide)

theorem pyStrip_eq_nil_iff (s : Str) :
    pyStrip s = [] ↔ ∀ c ∈ s, c.isWhitespace = true := by
  unfold pyStrip
  rw [List.reverse_eq_nil_iff, List.dropWhile_eq_nil_iff]
  constructor
  · intro h c hc
    rw [← List.takeWhile_append_dropWhile (p := Char.isWhitespace) (l := s)] at hc
    rcases List.mem_append.mp hc with h1 | h1
    · exact List.mem_takeWhile_imp h1
    · exact h c (List.mem_reverse.mpr h1)
  · intro h c hc
    exact h c ((List.dropWhile_sublist _).subset (List.mem_reverse.mp hc))

theorem pyStrip_ne_nil_iff (s : Str) : pyStrip s ≠ [] ↔ hasNonWs s := by
  rw [Ne, pyStrip_eq_nil_iff]
  unfold hasNonWs
  constructor
  · intro h
    by_contra habs
    push_neg at habs
    exact h fun c hc => by simpa using habs c hc
  · rintro ⟨c, hc, hws⟩ hall
    rw [hall c hc] at hws
    cases hws

theorem splitOnPred_ne_nil (p : Char → Bool) (s : Str) :
    splitOnPred p s ≠ [] := by
  cases s with
  | nil => simp [splitOnPred]
  | cons c rest =>
    unfold splitOnPred
    split
    · simp
    · split <;> simp

theorem splitOnPred_flatten (p : Char → Bool) (s : Str) :
    (splitOnPred p s).flatten = s.filter (fun c => !(p c)) := by
  induction s with
  | nil => simp [splitOnPred]
  | cons c rest ih =>
    unfold splitOnPred
    cases h : splitOnPred p rest with
    | nil => exact absurd h (splitOnPred_ne_nil p rest)
    | cons hd tl =>
      rw [h] at ih
      by_cases hp : p c = true
      · simpa [hp, List.filter_cons] using ih
      · have hp2 : p c = false := by simpa using hp
        simpa [hp2, List.filter_cons, List.flatten_cons] using ih

theorem mem_splitOnPred_not (p : Char → Bool) (s w : Str)
    (hw : w ∈ splitOnPred p s) (c : Char) (hc : c ∈ w) : p c = false := by
  have hmem : c ∈ (splitOnPred p s).flatten := List.mem_flatten.mpr ⟨w, hw, hc⟩
  rw [splitOnPred_flatten] at hmem
  have := (List.mem_filter.mp hmem).2
  simpa using this

theorem pySplitWs_ne_nil (s : Str) (h : hasNonWs s) : pySplitWs s ≠ [] := by
  intro habs
  unfold pySplitWs at habs
  rw [List.filter_eq_nil_iff] at habs
  obtain ⟨c, hc, hws⟩ := h
  have hall : ∀ w ∈ splitOnPred Char.isWhitespace s, w = [] := by
    intro w hw
    have := habs w hw
    simpa using this
  have hflat : (splitOnPred Char.isWhitespace s).flatten = [] :=
    List.flatten_eq_nil_iff.mpr hall
  rw [splitOnPred_flatten] at hflat
  have : c ∈ List.filter (fun c => !(Char.isWhitespace c)) s :=
    List.mem_filter.mpr ⟨hc, by simp [hws]⟩
  rw [hflat] at this
  cases this

theorem mem_pySplitWs_props (s w : Str) (hw : w ∈ pySplitWs s) :
    w ≠ [] ∧ ∀ c ∈ w, c.isWhitespace = false := by
  unfold pySplitWs at hw
  have h1 := List.mem_filter.mp hw
  refine ⟨by simpa using h1.2, fun c hc => ?_⟩
  exact mem_splitOnPred_not _ _ _ h1.1 c hc

theorem word_hasNonWs (w : Str) (h1 : w ≠ [])
    (h2 : ∀ c ∈ w, c.isWhitespace = false) : hasNonWs w := by
  cases w with
  | nil => exact absurd rfl h1
  | cons c rest => exact ⟨c, List.mem_cons_self _ _, h2 c (List.mem_cons_self _ _)⟩

theorem pyUpper_hasNonWs (w : Str) (h1 : w ≠ [])
    (h2 : ∀ c ∈ w, c.isWhitespace = false) : hasNonWs (pyUpper w) := by
  cases w with
  | nil => exact absurd rfl h1
  | cons c rest =>
    exact ⟨c.toUpper, by simp [pyUpper],
      toUpper_not_ws c (h2 c (List.mem_cons_self _ _))⟩

theorem joinWith_hasNonWs (sep : Str) (l : List Str) (w : Str) (hw : w ∈ l)
    (h : hasNonWs w) : hasNonWs (joinWith sep l) := by
  induction l with
  | nil => cases hw
  | cons x rest ih =>
    cases rest with
    | nil =>
      rw [List.mem_singleton.mp hw] at h
      exact h
    | cons y ys =>
      rcases List.mem_cons.mp hw with h1 | h1
      · subst h1
        exact hasNonWs_append_left (hasNonWs_append_left h)
      · exact hasNonWs_append_right (ih h1)

theorem pyReplaceChar_hasNonWs (c0 : Char) (repl s : Str)
    (hrepl : hasNonWs repl) (hs : hasNonWs s) :
    hasNonWs (pyReplaceChar c0 repl s) := by
  induction s with
  | nil => obtain ⟨c, hc, _⟩ := hs; cases hc
  | cons d rest ih =>
    unfold pyReplaceChar
    by_cases hd : (d == c0) = true
    · rw [hd]
      exact hasNonWs_append_left (by simpa using hrepl)
    · have hd2 : (d == c0) = false := by simpa using hd
      rw [hd2]
      obtain ⟨e, he, hews⟩ := hs
      rcases List.mem_cons.mp he with h1 | h1
      · subst h1
        exact hasNonWs_append_left ⟨e, List.mem_singleton.mpr rfl, hews⟩
      · exact hasNonWs_append_right (ih ⟨e, h1, hews⟩)

theorem substrIn_chars (w s : Str) (h : substrIn w s = true) :
    ∀ c ∈ w, c ∈ s := by
  intro c hc
  unfold substrIn at h
  obtain ⟨t, ht, hpre⟩ := List.any_eq_true.mp h
  have h1 : w <+: t := List.isPrefixOf_iff_prefix.mp hpre
  have h2 : t <:+ s := (List.mem_tails t s).mp ht
  exact h2.sublist.subset (h1.sublist.subset hc)

theorem subScan_periodWsCap_hasNonWs (fuel : Nat) (prev : Option Char)
    (s : Str) (h : hasNonWs s) :
    hasNonWs (subScan matchPeriodWsCap fuel prev s) := by
  induction fuel generalizing prev s with
  | zero => simpa [subScan] using h
  | succ f ih =>
    cases s with
    | nil => obtain ⟨c, hc, _⟩ := h; cases hc
    | cons c rest =>
      rw [subScan]
      cases hm : matchPeriodWsCap prev (c :: rest) with
      | none =>
        obtain ⟨e, he, hews⟩ := h
        rcases List.mem_cons.mp he with h1 | h1
        · subst h1; exact ⟨e, List.mem_cons_self _ _, hews⟩
        · exact hasNonWs_cons_tail (ih _ _ ⟨e, h1, hews⟩)
      | some res =>
        obtain ⟨consumed, repl, rest2⟩ := res
        have hfacts : ∃ u t, rest2 = u :: t ∧ u.isUpper = true := by
          simp only [matchPeriodWsCap] at hm
          split at hm
          · split at hm
            · rename_i hcond
              simp only [Option.some.injEq, Prod.mk.injEq] at hm
              rw [Bool.and_eq_true] at hcond
              have hup := hcond.2
              cases hl : rest.drop (rest.takeWhile Char.isWhitespace).length with
              | nil => rw [hl] at hup; simp at hup
              | cons u t =>
                refine ⟨u, t, ?_, ?_⟩
                · rw [← hm.2.2, hl]
                · rw [hl] at hup; simpa using hup
            · cases hm
          · cases hm
        obtain ⟨u, t, hrest2, hu⟩ := hfacts
        apply hasNonWs_append_right
        apply ih
        rw [hrest2]
        exact ⟨u, List.mem_cons_self _ _, isUpper_not_ws u hu⟩

theorem subScan_WBIC_hasNonWs (key repl : Str) (hrepl : hasNonWs repl)
    (fuel : Nat) (prev : Option Char) (s : Str) (h : hasNonWs s) :
    hasNonWs (subScan (matchWBIC key repl) fuel prev s) := by
  induction fuel generalizing prev s with
  | zero => simpa [subScan] using h
  | succ f ih =>
    cases s with
    | nil => obtain ⟨c, hc, _⟩ := h; cases hc
    | cons c rest =>
      rw [subScan]
      cases hm : matchWBIC key repl prev (c :: rest) with
      | none =>
        obtain ⟨e, he, hews⟩ := h
        rcases List.mem_cons.mp he with h1 | h1
        · subst h1; exact ⟨e, List.mem_cons_self _ _, hews⟩
        · exact hasNonWs_cons_tail (ih _ _ ⟨e, h1, hews⟩)
      | some res =>
        obtain ⟨consumed, mid, rest2⟩ := res
        have hmid : mid = repl := by
          simp only [matchWBIC] at hm
          split at hm
          · simp only [Option.some.injEq, Prod.mk.injEq] at hm
            exact hm.2.1.symm
          · cases hm
        subst hmid
        exact hasNonWs_append_left hrepl

/-! Step-by-step preservation through the style pipeline. -/

theorem adjust_response_length_hasNonWs (p : Profile) (r : MimicRand)
    (s : Str) (h : hasNonWs s) : hasNonWs (adjust_response_length p r s) := by
  simp only [adjust_response_length]
  split
  · exact hasNonWs_append_right ⟨'.', by simp, by decide⟩
  · split
    · split
      · exact hasNonWs_append_left (hasNonWs_append_left h)
      · exact h
    · exact h

theorem apply_punctuation_style_hasNonWs (p : Profile) (r : MimicRand)
    (s : Str) (h : hasNonWs s) : hasNonWs (apply_punctuation_style p r s) := by
  have hbang : hasNonWs (("!").data) := ⟨'!', by simp, by decide⟩
  have hdots : hasNonWs (("...").data) := ⟨'.', by simp, by decide⟩
  simp only [apply_punctuation_style]
  split
  · apply pyReplaceChar_hasNonWs _ _ _ hdots
    split
    · split
      · exact pyReplaceChar_hasNonWs _ _ _ hbang h
      · exact h
    · split
      · exact subScan_periodWsCap_hasNonWs _ _ _ h
      · exact h
  · split
    · split
      · exact pyReplaceChar_hasNonWs _ _ _ hbang h
      · exact h
    · split
      · exact subScan_periodWsCap_hasNonWs _ _ _ h
      · exact h

theorem apply_caps_patterns_hasNonWs (p : Profile) (r : MimicRand)
    (s : Str) (h : hasNonWs s) : hasNonWs (apply_caps_patterns p r s) := by
  simp only [apply_caps_patterns]
  split
  · cases hsp : pySplitWs s with
    | nil => exact absurd hsp (pySplitWs_ne_nil s h)
    | cons w rest =>
      have hw : w ∈ pySplitWs s := by rw [hsp]; exact List.mem_cons_self _ _
      have hprops := mem_pySplitWs_props s w hw
      rw [List.mapIdx_cons]
      apply joinWith_hasNonWs _ _ _ (List.mem_cons_self _ _)
      split
      · exact pyUpper_hasNonWs w hprops.1 hprops.2
      · exact word_hasNonWs w hprops.1 hprops.2
  · exact h

theorem insertPhraseLoop_hasNonWs (r : MimicRand) (l : List (String × ℚ))
    (i : Nat) (resp : Str) (h : hasNonWs resp) :
    hasNonWs (insertPhraseLoop r l i resp) := by
  induction l generalizing i with
  | nil => exact h
  | cons kv rest ih =>
    simp only [insertPhraseLoop]
    split
    · split
      · exact hasNonWs_append_left h
      · split
        · exact hasNonWs_append_left
            (hasNonWs_append_right ⟨',', by simp, by decide⟩)
        · split
          · exact hasNonWs_append_left
              (hasNonWs_append_right ⟨'!', by simp, by decide⟩)
          · exact h
    · exact ih _

theorem insert_common_phrases_hasNonWs (p : Profile) (r : MimicRand)
    (s : Str) (h : hasNonWs s) : hasNonWs (insert_common_phrases p r s) := by
  simp only [insert_common_phrases]
  split
  · exact h
  · exact insertPhraseLoop_hasNonWs _ _ _ _ h

theorem emojiLoop_hasNonWs (r : MimicRand) (lower : Str)
    (l : List (String × ℚ)) (i : Nat) (resp : Str) (h : hasNonWs resp) :
    hasNonWs (emojiLoop r lower l i resp) := by
  induction l generalizing i with
  | nil => exact h
  | cons kv rest ih =>
    simp only [emojiLoop]
    split
    all_goals repeat' split
    all_goals first
      | exact hasNonWs_append_left h
      | exact ih _

theorem add_learned_emojis_hasNonWs (p : Profile) (r : MimicRand)
    (s : Str) (h : hasNonWs s) : hasNonWs (add_learned_emojis p r s) := by
  simp only [add_learned_emojis]
  split
  · exact h
  · exact emojiLoop_hasNonWs _ _ _ _ _ h

theorem apply_contextual_tone_hasNonWs (p : Profile) (s : Str)
    (h : hasNonWs s) : hasNonWs (apply_contextual_tone p s) := by
  simp only [apply_contextual_tone]
  split
  · split
    · have h1 : hasNonWs (pyReplaceChar '!' (("!!!").data) s) :=
        pyReplaceChar_hasNonWs _ _ _ ⟨'!', by simp, by decide⟩ h
      cases hsp : pySplitWs (pyReplaceChar '!' (("!!!").data) s) with
      | nil => exact absurd hsp (pySplitWs_ne_nil _ h1)
      | cons w rest =>
        have hw : w ∈ pySplitWs (pyReplaceChar '!' (("!!!").data) s) := by
          rw [hsp]; exact List.mem_cons_self _ _
        have hprops := mem_pySplitWs_props _ w hw
        rw [List.map_cons]
        apply joinWith_hasNonWs _ _ _ (List.mem_cons_self _ _)
        split
        · exact pyUpper_hasNonWs w hprops.1 hprops.2
        · exact word_hasNonWs w hprops.1 hprops.2
    · exact h
  · split
    · rename_i hcas hcond
      split
      · simp only [List.any_cons, List.any_nil, Bool.or_eq_true] at hcond
        rcases hcond with hsub | hsub | hsub | hsub
        · have hc : 'c' ∈ pyLower s :=
            substrIn_chars _ _ hsub 'c' (by decide)
          exact ⟨'c',
            List.mem_filter.mpr ⟨List.mem_filter.mpr ⟨hc, by decide⟩, by decide⟩,
            by decide⟩
        · have hc : 'o' ∈ pyLower s :=
            substrIn_chars _ _ hsub 'o' (by decide)
          exact ⟨'o',
            List.mem_filter.mpr ⟨List.mem_filter.mpr ⟨hc, by decide⟩, by decide⟩,
            by decide⟩
        · have hc : 's' ∈ pyLower s :=
            substrIn_chars _ _ hsub 's' (by decide)
          exact ⟨'s',
            List.mem_filter.mpr ⟨List.mem_filter.mpr ⟨hc, by decide⟩, by decide⟩,
            by decide⟩
        · cases hsub
      · exact h
    · exact h

theorem greeting_replacements_nonws (style : String) :
    ∀ pr ∈ greeting_replacements style, hasNonWs pr.2 := by
  simp only [greeting_replacements]
  split
  · intro pr hpr
    fin_cases hpr <;> exact ⟨_, List.mem_cons_self _ _, by decide⟩
  · split
    · intro pr hpr
      fin_cases hpr <;> exact ⟨_, List.mem_cons_self _ _, by decide⟩
    · split
      · intro pr hpr
        fin_cases hpr <;> exact ⟨_, List.mem_cons_self _ _, by decide⟩
      · intro pr hpr; cases hpr

theorem greeting_fold_hasNonWs (l : List (Str × Str))
    (hl : ∀ pr ∈ l, hasNonWs pr.2) (resp : Str) (h : hasNonWs resp) :
    hasNonWs (l.foldl
      (fun resp fr => subScan (matchWBIC fr.1 fr.2) resp.length none resp) resp) := by
  induction l generalizing resp with
  | nil => exact h
  | cons fr rest ih =>
    rw [List.foldl_cons]
    exact ih (fun pr hpr => hl pr (List.mem_cons_of_mem _ hpr)) _
      (subScan_WBIC_hasNonWs _ _ (hl fr (List.mem_cons_self _ _)) _ _ _ h)

theorem apply_greeting_closing_patterns_hasNonWs (p : Profile) (s : Str)
    (h : hasNonWs s) : hasNonWs (apply_greeting_closing_patterns p s) := by
  simp only [apply_greeting_closing_patterns]
  split
  · exact greeting_fold_hasNonWs _ (greeting_replacements_nonws _) _ h
  · exact h

/-- Counterexample for C8: the empty draft is returned unchanged, so
synthesis does return an empty string on the empty draft. -/
theorem empty_draft_returns_empty :
    apply_user_style default_profile noRand (("").data) = (("").data) := rfl

/-- C8 amended: for every draft with at least one non-whitespace character
(equivalently a draft the top guard does not bounce), synthesis never
returns an empty string, whatever the profile and the random draws; the
empty output arises exactly for drafts that strip to nothing, which are
returned unchanged, and the exception fallback likewise returns the
unmodified draft. -/
theorem apply_user_style_ne_empty (profile : Profile) (r : MimicRand)
    (draft : Str) (h : pyStrip draft ≠ []) :
    apply_user_style profile r draft ≠ [] := by
  unfold apply_user_style
  by_cases hf : r.fail = true
  · rw [if_pos hf]
    intro habs
    subst habs
    exact h rfl
  · rw [if_neg hf, if_neg h]
    have h0 : hasNonWs draft := (pyStrip_ne_nil_iff draft).mp h
    have h1 := adjust_response_length_hasNonWs profile r draft h0
    have h2 := apply_punctuation_style_hasNonWs profile r _ h1
    have h3 := apply_caps_patterns_hasNonWs profile r _ h2
    have h4 := insert_common_phrases_hasNonWs profile r _ h3
    have h5 := add_learned_emojis_hasNonWs profile r _ h4
    have h6 := apply_contextual_tone_hasNonWs profile _ h5
    have h7 := apply_greeting_closing_patterns_hasNonWs profile _ h6
    exact (pyStrip_ne_nil_iff _).mpr h7

/-- Witness for the amended C8 at a concrete draft. -/
theorem apply_user_style_ne_empty_witness :
    pyStrip (("Sounds good.").data) ≠ []
      ∧ apply_user_style default_profile noRand (("Sounds good.").data) ≠ [] :=
  ⟨by decide,
   apply_user_style_ne_empty default_profile noRand (("Sounds good.").data)
     (by decide)⟩

end AiWa
